import Mathlib

/-!
Verification development for the franklin repository.

The Python binding layer (src/python/franklin.py) is embedded directly:
its wrapper classes `Column` and `Interpreter` are modelled as pure state
transformers, with the native library calls represented either by their
results (when only the raised/returned sentinel matters) or by an explicit
native-state model.  The native C library itself is not part of the
repository sources; where a property depends on its behaviour, the
corresponding definition is modelled from the spec and says so in its doc
comment.  The benchmark-analysis script (src/benchmarks/
analyze_fusion_scaling.py) is embedded with its hard-coded timing tables
and its cache categorisation and speedup computation.
-/

namespace Franklin

/-- Error kinds raised by the Python binding layer in franklin.py:
`ValueError`, `RuntimeError` and `IndexError`, each with its message. -/
inductive PyError where
  | valueError : String → PyError
  | runtimeError : String → PyError
  | indexError : String → PyError
deriving DecidableEq, Repr

/-- franklin.py line 58: `DataType.INT32 = 0`. -/
def DataType.INT32 : Nat := 0

/-- franklin.py line 59: `DataType.FLOAT32 = 1`.  The `DataType` class in
the source defines no further tag. -/
def DataType.FLOAT32 : Nat := 1

/-- The `dtype` argument of `Column.create`: either a name string or a
numeric tag (the source checks `isinstance(dtype, str)`). -/
inductive DtypeArg where
  | name : String → DtypeArg
  | tag : Nat → DtypeArg
deriving DecidableEq

/-- franklin.py line 80: the `dtype_map` dictionary inside `Column.create`,
mapping the accepted dtype names to their tags. -/
def dtype_map : List (String × Nat) :=
  [("int32", DataType.INT32), ("float32", DataType.FLOAT32)]

/-- franklin.py lines 79-83: resolution of the `dtype` argument in
`Column.create`.  A string is looked up in `dtype_map` and an unknown
string raises `ValueError`; a non-string tag is passed through unchanged. -/
def resolveDtype : DtypeArg → Except PyError Nat
  | .name s =>
    match dtype_map.lookup s with
    | some t => .ok t
    | none => .error (.valueError ("Unknown dtype: " ++ s))
  | .tag t => .ok t

/-- Python-side state of a `Column` wrapper object (franklin.py lines
65-67): its `_handle` field (`none` models `ffi.NULL`) and its `_owned`
flag. -/
structure ColumnW where
  handle : Option Nat
  owned : Bool
deriving DecidableEq, Repr

/-- franklin.py lines 85-88 (`Column.create` after dtype resolution): the
native `franklin_column_create` call is represented by its result
`nativeCreate tag size value`; the NULL sentinel (`none`) raises
`RuntimeError`, otherwise the handle is wrapped with ownership. -/
def Column.create (nativeCreate : Nat → Nat → Rat → Option Nat)
    (dtype : DtypeArg) (size : Nat) (value : Rat) : Except PyError ColumnW :=
  match resolveDtype dtype with
  | .error e => .error e
  | .ok tag =>
    match nativeCreate tag size value with
    | none => .error (.runtimeError "Failed to create column")
    | some h => .ok ⟨some h, true⟩

/-- One invocation of `Column.__del__` (franklin.py lines 90-93): returns
whether `franklin_column_destroy` was invoked, together with the wrapper
state afterwards (a destroy nulls the handle; `_owned` is left as is). -/
def Column.del (c : ColumnW) : Bool × ColumnW :=
  if c.owned = true ∧ c.handle ≠ none then (true, ⟨none, c.owned⟩)
  else (false, c)

/-- `Column._release` (franklin.py lines 108-113): clears the `_owned`
flag, nulls the handle, and returns the previous handle for passing to the
interpreter. -/
def Column.release (c : ColumnW) : Option Nat × ColumnW :=
  (c.handle, ⟨none, false⟩)

/-- The native buffer behind a column handle, as the binding observes it:
its representation tag and its element contents.  Modelled from the spec:
a typed, fixed-length, densely packed buffer whose representation tag is
immutable after creation. -/
structure ColumnData where
  dtype : Nat
  vals : List Int
deriving DecidableEq

/-- Modelled from the spec: `franklin_column_size` (native, not in src/)
returns the element count of the buffer; no failure mode for a valid
handle. -/
def franklin_column_size (c : ColumnData) : Nat := c.vals.length

/-- Modelled from the spec: `franklin_column_get_int32` (native, not in
src/) reads element `i` of the raw buffer through the int32 read path; a
raw in-bounds memory read, it depends only on the buffer contents, never
on the representation tag. -/
def franklin_column_get_int32 (vals : List Int) (i : Nat) : Int :=
  vals.getD i 0

/-- `Column.__getitem__` (franklin.py lines 98-103): indices below zero or
at/after `len(self)` raise `IndexError`; otherwise the element is read via
`franklin_column_get_int32`, whatever the column's representation. -/
def Column.getitem (c : ColumnData) (index : Int) : Except PyError Int :=
  if index < 0 ∨ (franklin_column_size c : Int) ≤ index then
    .error (.indexError "Column index out of range")
  else
    .ok (franklin_column_get_int32 c.vals index.toNat)

/-- `Column.to_list` (franklin.py lines 105-106): `self[i]` for every
`i` in `range(len(self))`. -/
def Column.to_list (c : ColumnData) : List (Except PyError Int) :=
  (List.range (franklin_column_size c)).map (Column.getitem c)

/-- Modelled from the spec: the native engine state observed across the
ABI (the native library sources are not in the repository): the
caller-owned column buffers by handle, and the interpreter's registry
mapping names to the buffers it owns. -/
structure NativeState where
  heap : List (Nat × List Int)
  registry : List (String × List Int)
deriving DecidableEq

/-- Modelled from the spec: `franklin_interpreter_has_column` (native, not
in src/) reports whether `name` is registered. -/
def franklin_interpreter_has_column (s : NativeState) (name : String) : Bool :=
  (s.registry.lookup name).isSome

/-- Modelled from the spec: `franklin_interpreter_size` (native, not in
src/) returns the count of registered columns. -/
def franklin_interpreter_size (s : NativeState) : Nat :=
  s.registry.length

/-- Modelled from the spec: `franklin_interpreter_register` (native, not
in src/) transfers ownership of the handle's buffer into the registry
under `name` and answers `true`; it answers `false` with the state
unchanged when the handle is NULL or unknown, or when the name is already
taken (the spec's section 9 leaves replace-vs-fail open; the claims below
exercise only fresh names, for which the spec fixes the behaviour). -/
def franklin_interpreter_register (s : NativeState) (name : String)
    (h : Option Nat) : Bool × NativeState :=
  match h with
  | none => (false, s)
  | some h =>
    match s.heap.lookup h with
    | none => (false, s)
    | some buf =>
      if (s.registry.lookup name).isSome then (false, s)
      else (true, ⟨s.heap.filter (fun p => p.1 != h), (name, buf) :: s.registry⟩)

/-- Modelled from the spec: `franklin_column_destroy` (native, not in
src/) releases the handle's buffer; a NULL or already-released handle is a
no-op, not an error. -/
def franklin_column_destroy (s : NativeState) (h : Option Nat) : NativeState :=
  match h with
  | none => s
  | some h => ⟨s.heap.filter (fun p => p.1 != h), s.registry⟩

/-- A handle never yet allocated in the native heap (one past the largest
live handle). -/
def freshHandle (s : NativeState) : Nat :=
  (s.heap.map Prod.fst).foldr max 0 + 1

/-- Modelled from the spec: `franklin_interpreter_eval` (native, not in
src/) on a bare column name: a registered name yields a freshly allocated,
caller-owned copy of the registered buffer; an unresolvable expression
yields the NULL sentinel. -/
def franklin_interpreter_eval (s : NativeState) (expression : String) :
    Option (Nat × NativeState) :=
  match s.registry.lookup expression with
  | none => none
  | some buf => some (freshHandle s, ⟨(freshHandle s, buf) :: s.heap, s.registry⟩)

/-- `Interpreter.register` (franklin.py lines 133-140): the caller's
wrapper is `_release`d first, unconditionally; then the native register is
called with the released handle, and a `false` answer raises
`RuntimeError`.  Returns the call's outcome, the caller's wrapper state
after the call, and the native state after the call. -/
def Interpreter.register (s : NativeState) (name : String) (c : ColumnW) :
    Except PyError Unit × ColumnW × NativeState :=
  let r := Column.release c
  let res := franklin_interpreter_register s name r.1
  if res.1 then (.ok (), r.2, res.2)
  else (.error (.runtimeError ("Failed to register column " ++ name)), r.2, res.2)

/-- `Interpreter.eval` (franklin.py lines 142-150): the native eval is
called with the expression text; the NULL sentinel raises `RuntimeError`,
otherwise the returned handle is wrapped as an owned `Column`. -/
def Interpreter.eval (s : NativeState) (expression : String) :
    Except PyError (ColumnW × NativeState) :=
  match franklin_interpreter_eval s expression with
  | none => .error (.runtimeError ("Failed to evaluate expression: " ++ expression))
  | some (h, s2) => .ok (⟨some h, true⟩, s2)

/-- `Interpreter.__init__` (franklin.py lines 119-126): only the dtype
string "int32" reaches the native create (represented by its result
`nativeCreateInt32`); any other dtype raises `ValueError` before any
native call; a NULL handle from the native create raises `RuntimeError`. -/
def Interpreter.init (nativeCreateInt32 : Option Nat) (dtype : String) :
    Except PyError Nat :=
  if dtype = "int32" then
    match nativeCreateInt32 with
    | none => .error (.runtimeError "Failed to create interpreter")
    | some h => .ok h
  else .error (.valueError ("Unsupported dtype: " ++ dtype))

/-- One benchmark row as `parse_benchmark_line`
(src/benchmarks/analyze_fusion_scaling.py lines 46-61) extracts it: the
elements count, the first (wall-clock) ns figure, and `size_kb` with a `k`
suffix expanded by a factor of 1024. -/
structure BenchRow where
  elements : Nat
  timeNs : Nat
  sizeKb : Rat
deriving DecidableEq

/-- The `NAIVE_RESULTS` table (analyze_fusion_scaling.py lines 11-26),
already put through `parse_benchmark_line`: e.g. the row for 262144
elements carries `size_kb=1.024k`, parsed as `1.024 * 1024 = 1048576/1000`
KB. -/
def NAIVE_RESULTS : List BenchRow :=
  [ ⟨8192, 1017, 32⟩,
    ⟨16384, 1990, 64⟩,
    ⟨32768, 4010, 128⟩,
    ⟨65536, 9158, 256⟩,
    ⟨131072, 18985, 512⟩,
    ⟨262144, 37664, 1048576/1000⟩,
    ⟨524288, 75803, 2097152/1000⟩,
    ⟨1048576, 160630, 4194304/1000⟩,
    ⟨2097152, 574731, 8388608/1000⟩,
    ⟨4194304, 1813955, 16777216/1000⟩,
    ⟨8388608, 5014612, 33554432/1000⟩,
    ⟨16777216, 12610665, 67108864/1000⟩,
    ⟨33554432, 25322114, 134217728/1000⟩,
    ⟨67108864, 50438557, 268435456/1000⟩ ]

/-- The `FUSED_RESULTS` table (analyze_fusion_scaling.py lines 28-43),
already put through `parse_benchmark_line`. -/
def FUSED_RESULTS : List BenchRow :=
  [ ⟨8192, 786, 32⟩,
    ⟨16384, 1568, 64⟩,
    ⟨32768, 3112, 128⟩,
    ⟨65536, 7336, 256⟩,
    ⟨131072, 14840, 512⟩,
    ⟨262144, 30165, 1048576/1000⟩,
    ⟨524288, 60836, 2097152/1000⟩,
    ⟨1048576, 155198, 4194304/1000⟩,
    ⟨2097152, 465657, 8388608/1000⟩,
    ⟨4194304, 1522573, 16777216/1000⟩,
    ⟨8388608, 3914487, 33554432/1000⟩,
    ⟨16777216, 8813079, 67108864/1000⟩,
    ⟨33554432, 18415052, 134217728/1000⟩,
    ⟨67108864, 35367680, 268435456/1000⟩ ]

/-- The cache levels the script names. -/
inductive CacheLevel where
  | L1 | L2 | L3 | DRAM
deriving DecidableEq, Repr

/-- `categorize_by_cache` (analyze_fusion_scaling.py lines 64-73): L1 up
to 32 KB, L2 up to 1024 KB, L3 up to 32768 KB, DRAM beyond. -/
def categorize_by_cache (sizeKb : Rat) : CacheLevel :=
  if sizeKb ≤ 32 then .L1
  else if sizeKb ≤ 1024 then .L2
  else if sizeKb ≤ 32768 then .L3
  else .DRAM

/-- The per-size results `main` (analyze_fusion_scaling.py lines 112-117)
computes: for each elements key of the naive table, the speedup
`naive time_ns / fused time_ns` and the cache category of the naive row's
`size_kb`.  The fused table holds every naive key, so the 0 fallback for a
missing key is dead. -/
def fusionRows : List (Nat × Rat × CacheLevel) :=
  NAIVE_RESULTS.map (fun r =>
    match FUSED_RESULTS.find? (fun f => f.elements == r.elements) with
    | some f => (r.elements, (r.timeNs : Rat) / (f.timeNs : Rat),
        categorize_by_cache r.sizeKb)
    | none => (r.elements, 0, categorize_by_cache r.sizeKb))

end Franklin

deriving instance DecidableEq for Except

namespace Franklin

/-- Every member of a list of naturals is bounded by the list's
`foldr max 0`. -/
theorem le_foldr_max (l : List Nat) (k : Nat) (hk : k ∈ l) : k ≤ l.foldr max 0 := by
  induction l with
  | nil => cases hk
  | cons a t ih =>
    cases hk with
    | head => exact le_max_left _ _
    | tail _ h => exact le_trans (ih h) (le_max_right _ _)

/-- Every live handle in the heap is strictly below `freshHandle`. -/
theorem mem_heap_lt_fresh (s : NativeState) (p : Nat × List Int) (hp : p ∈ s.heap) :
    p.1 < freshHandle s := by
  have hm : p.1 ∈ s.heap.map Prod.fst := List.mem_map_of_mem _ hp
  exact Nat.lt_succ_of_le (le_foldr_max _ _ hm)

/-- Looking up a key strictly above every key of an association list
yields `none`. -/
theorem lookup_eq_none_of_keys_lt (l : List (Nat × List Int)) (n : Nat)
    (h : ∀ p ∈ l, p.1 < n) : l.lookup n = none := by
  induction l with
  | nil => rfl
  | cons a t ih =>
    have ha : a.1 < n := h a (List.mem_cons_self a t)
    obtain ⟨k, v⟩ := a
    have hne : (n == k) = false := by
      simp only [beq_eq_false_iff_ne, ne_eq]
      simp only [] at ha
      omega
    simp only [List.lookup, hne]
    exact ih fun p hp => h p (List.mem_cons_of_mem _ hp)

/-- The fresh handle is not a live handle of the heap. -/
theorem lookup_fresh (s : NativeState) : s.heap.lookup (freshHandle s) = none :=
  lookup_eq_none_of_keys_lt _ _ (fun p hp => mem_heap_lt_fresh s p hp)

/-- Releasing the fresh handle from a heap extended with it restores the
original heap. -/
theorem filter_fresh (s : NativeState) (buf : List Int) :
    ((freshHandle s, buf) :: s.heap).filter (fun p => p.1 != freshHandle s) = s.heap := by
  have h1 : ((freshHandle s, buf).1 != freshHandle s) = false := by simp
  rw [List.filter_cons, h1]
  simp only [Bool.false_eq_true, if_false]
  exact List.filter_eq_self.mpr fun p hp => by
    have := mem_heap_lt_fresh s p hp
    simp only [bne_iff_ne, ne_eq]
    omega

/-- When the native register answers `false` it leaves the native state
unchanged. -/
theorem register_native_false_state_unchanged (s : NativeState) (name : String)
    (h : Option Nat) (hf : (franklin_interpreter_register s name h).1 = false) :
    (franklin_interpreter_register s name h).2 = s := by
  cases h with
  | none => rfl
  | some k =>
    simp only [franklin_interpreter_register] at hf ⊢
    cases hl : s.heap.lookup k with
    | none => simp [hl]
    | some buf =>
      simp only [hl] at hf ⊢
      by_cases hc : (s.registry.lookup name).isSome = true
      · simp [hc]
      · simp [hc] at hf

/-- The only errors `resolveDtype` produces are unknown-dtype
`ValueError`s. -/
theorem resolveDtype_error_shape (d : DtypeArg) (e : PyError)
    (h : resolveDtype d = .error e) : ∃ s, e = .valueError ("Unknown dtype: " ++ s) := by
  cases d with
  | tag t => exact Except.noConfusion h
  | name s =>
    unfold resolveDtype at h
    cases hl : dtype_map.lookup s with
    | some t =>
      simp only [hl] at h
      exact Except.noConfusion h
    | none =>
      simp only [hl] at h
      injection h with h1
      exact ⟨s, h1.symm⟩

/-- Claim C1, counterexample: registering the column with handle 5 under
the already-taken name "x" fails with `RuntimeError`, yet the caller's
wrapper does not remain as before the call (its handle has been nulled
and its ownership flag cleared by the unconditional `_release`), and its
destructor no longer frees anything — so the caller does not still own
the column after the failed `register`. -/
theorem register_failure_not_atomic :
    (Interpreter.register ⟨[(5, [2, 3])], [("x", [1])]⟩ "x" ⟨some 5, true⟩).1 =
      .error (.runtimeError "Failed to register column x") ∧
    (Interpreter.register ⟨[(5, [2, 3])], [("x", [1])]⟩ "x" ⟨some 5, true⟩).2.1 ≠
      ⟨some 5, true⟩ ∧
    (Column.del (Interpreter.register ⟨[(5, [2, 3])], [("x", [1])]⟩ "x"
      ⟨some 5, true⟩).2.1).1 = false := by
  decide

/-- Claim C1, amended: when `Interpreter.register` fails, the caller has
already relinquished ownership: the wrapper's handle is nulled and its
owned flag cleared before the native call, its destructor is thereafter a
no-op, and the native state itself is unchanged (so the column's buffer
stays in the native heap, no longer destroyable through the caller's
handle). -/
theorem register_failure_releases_ownership (s : NativeState) (name : String)
    (c : ColumnW) (e : PyError)
    (hfail : (Interpreter.register s name c).1 = .error e) :
    (Interpreter.register s name c).2.1 = ⟨none, false⟩ ∧
    (Column.del (Interpreter.register s name c).2.1).1 = false ∧
    (Interpreter.register s name c).2.2 = s := by
  have hrel : (Interpreter.register s name c).2.1 = ⟨none, false⟩ := by
    simp only [Interpreter.register]
    split <;> rfl
  refine ⟨hrel, ?_, ?_⟩
  · rw [hrel]; rfl
  · cases hr : (franklin_interpreter_register s name c.handle).1 with
    | true =>
      exfalso
      simp only [Interpreter.register, Column.release, hr, if_true] at hfail
      exact Except.noConfusion hfail
    | false =>
      have h2 := register_native_false_state_unchanged s name c.handle hr
      simp only [Interpreter.register, Column.release, hr, Bool.false_eq_true, if_false]
      exact h2

/-- Claim C1, witness: a concrete failing registration (NULL handle into
an empty interpreter) at which the amended theorem's hypothesis holds and
its conclusions evaluate. -/
theorem register_failure_releases_ownership_witness :
    (Interpreter.register ⟨[], []⟩ "y" ⟨none, true⟩).1 =
      .error (.runtimeError "Failed to register column y") ∧
    ((Interpreter.register ⟨[], []⟩ "y" ⟨none, true⟩).2.1 = ⟨none, false⟩ ∧
     (Column.del (Interpreter.register ⟨[], []⟩ "y" ⟨none, true⟩).2.1).1 = false ∧
     (Interpreter.register ⟨[], []⟩ "y" ⟨none, true⟩).2.2 = ⟨[], []⟩) :=
  ⟨by decide, register_failure_releases_ownership ⟨[], []⟩ "y" ⟨none, true⟩
    (.runtimeError "Failed to register column y") (by decide)⟩

/-- Claim C2: contrary to the claim (and to the repository's own tests in
test_column_types.py, which exercise "bf16" and a third DataType tag),
the binding's creation interface exposes only two representations: the
`dtype_map` of `Column.create` holds exactly int32 (tag 0) and float32
(tag 1), the `DataType` class defines no reduced-float tag 2, and
`Column.create` with the name "bf16" raises `ValueError` for every native
creator, size and fill value. -/
theorem create_rejects_bf16 :
    DataType.INT32 = 0 ∧ DataType.FLOAT32 = 1 ∧ dtype_map.length = 2 ∧
    dtype_map.lookup "int32" = some 0 ∧ dtype_map.lookup "float32" = some 1 ∧
    dtype_map.lookup "bf16" = none ∧
    resolveDtype (.name "bf16") = .error (.valueError "Unknown dtype: bf16") ∧
    ∀ (nc : Nat → Nat → Rat → Option Nat) (sz : Nat) (v : Rat),
      Column.create nc (.name "bf16") sz v =
        .error (.valueError "Unknown dtype: bf16") := by
  exact ⟨rfl, rfl, rfl, by decide, by decide, by decide, by decide, fun nc sz v => rfl⟩

/-- Claim C3, counterexample: the working-set size of 8388608 elements is
categorized as DRAM by the script (its parsed size, 33554.432 KB, exceeds
the 32768 KB L3 bound), yet its fusion speedup 5014612/3914487 (≈ 1.281)
does not exceed 1.4 — refuting the claim that the speedup exceeds 1.4 for
every DRAM-categorized size. -/
theorem fusion_speedup_dram_counterexample :
    (8388608, (5014612 : Rat) / 3914487, CacheLevel.DRAM) ∈ fusionRows ∧
    ¬ ((14 : Rat) / 10 < (5014612 : Rat) / 3914487) := by
  constructor
  · simp [fusionRows, NAIVE_RESULTS, FUSED_RESULTS, List.find?, categorize_by_cache]
    norm_num
  · norm_num

/-- Claim C3, amended: the script categorizes exactly the four largest
sizes as DRAM; among them the fusion speedup exceeds 1.4 only at 16777216
and 67108864 elements (both < 1.45), while at 8388608 and 33554432 it
stays below 1.4 (both > 1.25); for the single L1-categorized size (8192
elements) the speedup is within 0.01 of 1.3. -/
theorem fusion_speedup_by_cache_level :
    fusionRows.map (fun x => (x.1, x.2.2)) =
      [(8192, .L1), (16384, .L2), (32768, .L2), (65536, .L2), (131072, .L2),
       (262144, .L3), (524288, .L3), (1048576, .L3), (2097152, .L3), (4194304, .L3),
       (8388608, .DRAM), (16777216, .DRAM), (33554432, .DRAM), (67108864, .DRAM)] ∧
    ((8388608, (5014612 : Rat) / 3914487, CacheLevel.DRAM) ∈ fusionRows ∧
      (5 : Rat) / 4 < (5014612 : Rat) / 3914487 ∧
      (5014612 : Rat) / 3914487 < (14 : Rat) / 10) ∧
    ((16777216, (12610665 : Rat) / 8813079, CacheLevel.DRAM) ∈ fusionRows ∧
      (14 : Rat) / 10 < (12610665 : Rat) / 8813079 ∧
      (12610665 : Rat) / 8813079 < (29 : Rat) / 20) ∧
    ((33554432, (25322114 : Rat) / 18415052, CacheLevel.DRAM) ∈ fusionRows ∧
      (5 : Rat) / 4 < (25322114 : Rat) / 18415052 ∧
      (25322114 : Rat) / 18415052 < (14 : Rat) / 10) ∧
    ((67108864, (50438557 : Rat) / 35367680, CacheLevel.DRAM) ∈ fusionRows ∧
      (14 : Rat) / 10 < (50438557 : Rat) / 35367680 ∧
      (50438557 : Rat) / 35367680 < (29 : Rat) / 20) ∧
    ((8192, (1017 : Rat) / 786, CacheLevel.L1) ∈ fusionRows ∧
      (1017 : Rat) / 786 - (13 : Rat) / 10 < (1 : Rat) / 100 ∧
      (13 : Rat) / 10 - (1017 : Rat) / 786 < (1 : Rat) / 100) := by
  refine ⟨?_, ⟨?_, by norm_num, by norm_num⟩, ⟨?_, by norm_num, by norm_num⟩,
    ⟨?_, by norm_num, by norm_num⟩, ⟨?_, by norm_num, by norm_num⟩,
    ⟨?_, by norm_num, by norm_num⟩⟩ <;>
  · simp [fusionRows, NAIVE_RESULTS, FUSED_RESULTS, List.find?, categorize_by_cache]
    try norm_num

/-- Claim C4: element access is total and bounds-checked — for every
column and integer index, `Column.__getitem__` succeeds exactly when
0 ≤ index < length, and raises `IndexError` whenever index < 0 (no
Python-style wraparound) or index ≥ length. -/
theorem getitem_bounds (c : ColumnData) (index : Int) :
    ((∃ v, Column.getitem c index = .ok v) ↔
      0 ≤ index ∧ index < (franklin_column_size c : Int)) ∧
    ((index < 0 ∨ (franklin_column_size c : Int) ≤ index) →
      Column.getitem c index = .error (.indexError "Column index out of range")) := by
  unfold Column.getitem
  by_cases h : index < 0 ∨ (franklin_column_size c : Int) ≤ index
  · rw [if_pos h]
    refine ⟨⟨fun ⟨v, hv⟩ => Except.noConfusion hv, fun hb => absurd h (by omega)⟩, fun _ => rfl⟩
  · rw [if_neg h]
    refine ⟨⟨fun _ => by omega, fun _ => ⟨_, rfl⟩⟩, fun hb => absurd hb h⟩

/-- Claim C4, witness: the bounds equivalence evaluated on a concrete
two-element column at index 1. -/
theorem getitem_bounds_witness :
    ((∃ v, Column.getitem ⟨0, [7, 8]⟩ 1 = .ok v) ↔
      0 ≤ (1 : Int) ∧ (1 : Int) < (franklin_column_size ⟨0, [7, 8]⟩ : Int)) ∧
    (((1 : Int) < 0 ∨ (franklin_column_size ⟨0, [7, 8]⟩ : Int) ≤ 1) →
      Column.getitem ⟨0, [7, 8]⟩ 1 = .error (.indexError "Column index out of range")) :=
  getitem_bounds ⟨0, [7, 8]⟩ 1

/-- Claim C5: when the caller's handle is live and the name is fresh,
`Interpreter.register` succeeds, the name becomes visible via
`has_column`, the registered-column count grows by exactly one, and the
caller's original wrapper is no longer a valid target for destruction
(its destructor is a no-op). -/
theorem register_success_visible_and_consumes (s : NativeState) (name : String)
    (k : Nat) (buf : List Int)
    (hk : s.heap.lookup k = some buf) (hn : s.registry.lookup name = none) :
    (Interpreter.register s name ⟨some k, true⟩).1 = .ok () ∧
    franklin_interpreter_has_column (Interpreter.register s name ⟨some k, true⟩).2.2 name = true ∧
    franklin_interpreter_size (Interpreter.register s name ⟨some k, true⟩).2.2 =
      franklin_interpreter_size s + 1 ∧
    (Column.del (Interpreter.register s name ⟨some k, true⟩).2.1).1 = false := by
  simp only [Interpreter.register, Column.release, franklin_interpreter_register, hk, hn,
    Option.isSome_none, Bool.false_eq_true, if_false, if_true,
    franklin_interpreter_has_column, franklin_interpreter_size, Column.del, List.lookup]
  simp [List.lookup]

/-- Claim C5, witness: a concrete successful registration of handle 1
under the fresh name "x". -/
theorem register_success_witness :
    (⟨[(1, [7])], []⟩ : NativeState).heap.lookup 1 = some [7] ∧
    (⟨[(1, [7])], []⟩ : NativeState).registry.lookup "x" = none ∧
    ((Interpreter.register ⟨[(1, [7])], []⟩ "x" ⟨some 1, true⟩).1 = .ok () ∧
     franklin_interpreter_has_column
       (Interpreter.register ⟨[(1, [7])], []⟩ "x" ⟨some 1, true⟩).2.2 "x" = true ∧
     franklin_interpreter_size
       (Interpreter.register ⟨[(1, [7])], []⟩ "x" ⟨some 1, true⟩).2.2 =
       franklin_interpreter_size ⟨[(1, [7])], []⟩ + 1 ∧
     (Column.del (Interpreter.register ⟨[(1, [7])], []⟩ "x" ⟨some 1, true⟩).2.1).1 = false) :=
  ⟨by decide, by decide,
    register_success_visible_and_consumes ⟨[(1, [7])], []⟩ "x" 1 [7] (by decide) (by decide)⟩

/-- Claim C6: evaluating a bare registered name returns a freshly owned
column carrying a copy of the registered buffer (same values, hence same
length), under a handle that was not previously live; destroying that
result restores the native state exactly — the registered column and its
values are untouched and nothing is double-freed. -/
theorem eval_bare_name_copies (s : NativeState) (name : String) (buf : List Int)
    (hreg : s.registry.lookup name = some buf) :
    Interpreter.eval s name = .ok (⟨some (freshHandle s), true⟩,
      ⟨(freshHandle s, buf) :: s.heap, s.registry⟩) ∧
    s.heap.lookup (freshHandle s) = none ∧
    (franklin_column_destroy ⟨(freshHandle s, buf) :: s.heap, s.registry⟩
        (some (freshHandle s))) = s := by
  refine ⟨?_, lookup_fresh s, ?_⟩
  · simp [Interpreter.eval, franklin_interpreter_eval, hreg]
  · simp only [franklin_column_destroy]
    rw [filter_fresh]

/-- Claim C6, witness: bare-name evaluation of "x" bound to [1, 2] in an
interpreter with an empty caller heap. -/
theorem eval_bare_name_copies_witness :
    (⟨[], [("x", [1, 2])]⟩ : NativeState).registry.lookup "x" = some [1, 2] ∧
    (Interpreter.eval ⟨[], [("x", [1, 2])]⟩ "x" =
       .ok (⟨some (freshHandle ⟨[], [("x", [1, 2])]⟩), true⟩,
         ⟨(freshHandle ⟨[], [("x", [1, 2])]⟩, [1, 2]) :: ([] : List (Nat × List Int)),
          [("x", [1, 2])]⟩) ∧
     ([] : List (Nat × List Int)).lookup (freshHandle ⟨[], [("x", [1, 2])]⟩) = none ∧
     (franklin_column_destroy
        ⟨(freshHandle ⟨[], [("x", [1, 2])]⟩, [1, 2]) :: ([] : List (Nat × List Int)),
         [("x", [1, 2])]⟩ (some (freshHandle ⟨[], [("x", [1, 2])]⟩))) =
       ⟨[], [("x", [1, 2])]⟩) :=
  ⟨by decide, eval_bare_name_copies ⟨[], [("x", [1, 2])]⟩ "x" [1, 2] (by decide)⟩

/-- Claim C7: boundary failures are sentinels translated to exceptions by
the binding — `Column.create` and `Interpreter.eval` either return a
wrapper holding a non-null handle or raise `RuntimeError` exactly when
the underlying native call returns the NULL sentinel, and
`Interpreter.register` raises `RuntimeError` exactly when the native call
answers `false`; no wrapper holding a null handle is ever returned. -/
theorem sentinel_translation :
    (∀ (nc : Nat → Nat → Rat → Option Nat) (d : DtypeArg) (sz : Nat) (v : Rat)
        (c : ColumnW), Column.create nc d sz v = .ok c → c.handle ≠ none) ∧
    (∀ (nc : Nat → Nat → Rat → Option Nat) (d : DtypeArg) (sz : Nat) (v : Rat),
        (∃ m, Column.create nc d sz v = .error (.runtimeError m)) ↔
        (∃ tag, resolveDtype d = .ok tag ∧ nc tag sz v = none)) ∧
    (∀ (s : NativeState) (ex : String) (c : ColumnW) (s2 : NativeState),
        Interpreter.eval s ex = .ok (c, s2) → c.handle ≠ none) ∧
    (∀ (s : NativeState) (ex : String),
        (∃ m, Interpreter.eval s ex = .error (.runtimeError m)) ↔
        franklin_interpreter_eval s ex = none) ∧
    (∀ (s : NativeState) (n : String) (c : ColumnW),
        (∃ m, (Interpreter.register s n c).1 = .error (.runtimeError m)) ↔
        (franklin_interpreter_register s n (Column.release c).1).1 = false) := by
  refine ⟨?_, ?_, ?_, ?_, ?_⟩
  · intro nc d sz v c hc
    unfold Column.create at hc
    cases hd : resolveDtype d with
    | error e => simp [hd] at hc
    | ok tag =>
      simp only [hd] at hc
      cases hn : nc tag sz v with
      | none => simp [hn] at hc
      | some h =>
        simp only [hn] at hc
        injection hc with h1
        subst h1
        simp
  · intro nc d sz v
    unfold Column.create
    cases hd : resolveDtype d with
    | error e =>
      simp only [hd]
      constructor
      · rintro ⟨m, hm⟩
        obtain ⟨s0, rfl⟩ := resolveDtype_error_shape d e hd
        injection hm with h1
        exact PyError.noConfusion h1
      · rintro ⟨tag, htag, -⟩
        exact Except.noConfusion htag
    | ok tag =>
      simp only [hd]
      cases hn : nc tag sz v with
      | none =>
        simp only [hn]
        exact ⟨fun _ => ⟨tag, rfl, hn⟩, fun _ => ⟨"Failed to create column", rfl⟩⟩
      | some h =>
        simp only [hn]
        constructor
        · rintro ⟨m, hm⟩
          exact Except.noConfusion hm
        · rintro ⟨tag2, htag2, hn2⟩
          injection htag2 with ht
          subst ht
          rw [hn] at hn2
          exact Option.noConfusion hn2
  · intro s ex c s2 hc
    unfold Interpreter.eval at hc
    cases he : franklin_interpreter_eval s ex with
    | none => simp [he] at hc
    | some p =>
      obtain ⟨ph, ps⟩ := p
      simp only [he] at hc
      injection hc with h1
      rw [Prod.mk.injEq] at h1
      obtain ⟨rfl, rfl⟩ := h1
      simp
  · intro s ex
    unfold Interpreter.eval
    cases he : franklin_interpreter_eval s ex with
    | none =>
      simp only [he]
      constructor
      · intro _
        simp
      · intro _
        exact ⟨_, rfl⟩
    | some p =>
      obtain ⟨ph, ps⟩ := p
      simp only [he]
      constructor
      · rintro ⟨m, hm⟩
        exact Except.noConfusion hm
      · rintro h
        exact Option.noConfusion h
  · intro s n c
    simp only [Interpreter.register, Column.release]
    cases hr : (franklin_interpreter_register s n c.handle).1 with
    | false =>
      simp only [Bool.false_eq_true, if_false]
      constructor
      · intro _
        simp
      · intro _
        exact ⟨_, rfl⟩
    | true =>
      rw [if_pos rfl]
      constructor
      · rintro ⟨m, hm⟩
        exact Except.noConfusion hm
      · rintro h
        exact Bool.noConfusion h

/-- Claim C7, witness: concrete instances of the sentinel translation — a
successful create returning a non-null wrapper, a NULL-returning native
create raising `RuntimeError`, and a `false`-answering native register
raising `RuntimeError`. -/
theorem sentinel_translation_witness :
    (Column.create (fun _ _ _ => some 9) (.name "int32") 4 0 = .ok ⟨some 9, true⟩ ∧
     (⟨some 9, true⟩ : ColumnW).handle ≠ none) ∧
    (∃ m, Column.create (fun _ _ _ => none) (.name "int32") 4 0 =
      .error (.runtimeError m)) ∧
    (∃ m, (Interpreter.register ⟨[], []⟩ "z" ⟨none, true⟩).1 =
      .error (.runtimeError m)) :=
  ⟨⟨rfl, sentinel_translation.1 (fun _ _ _ => some 9) (.name "int32") 4 0 ⟨some 9, true⟩ rfl⟩,
   (sentinel_translation.2.1 (fun _ _ _ => none) (.name "int32") 4 0).mpr
     ⟨0, rfl, rfl⟩,
   (sentinel_translation.2.2.2.2 ⟨[], []⟩ "z" ⟨none, true⟩).mpr rfl⟩

/-- Claim C8: destruction is idempotent — for every wrapper state, a
second invocation of `Column.__del__` never frees again and leaves the
state fixed, and a destructor invocation after `_release` (e.g. after a
successful registration) frees nothing. -/
theorem destroy_idempotent (c : ColumnW) :
    (Column.del (Column.del c).2).1 = false ∧
    (Column.del (Column.del c).2).2 = (Column.del c).2 ∧
    (Column.del (Column.release c).2).1 = false := by
  obtain ⟨h, o⟩ := c
  cases h <;> cases o <;> simp [Column.del, Column.release]

/-- Claim C9: element reads ignore the column's representation — for
every representation tag, `Column.__getitem__` behaves identically and
reads in-bounds elements through `franklin_column_get_int32`, and
`Column.to_list` is likewise representation-independent. -/
theorem getitem_ignores_dtype (d d2 : Nat) (vals : List Int) (index : Int) :
    Column.getitem ⟨d, vals⟩ index = Column.getitem ⟨d2, vals⟩ index ∧
    (0 ≤ index → index < (vals.length : Int) →
      Column.getitem ⟨d, vals⟩ index = .ok (franklin_column_get_int32 vals index.toNat)) ∧
    Column.to_list ⟨d, vals⟩ = Column.to_list ⟨d2, vals⟩ := by
  refine ⟨rfl, fun h1 h2 => ?_, rfl⟩
  have hc : ¬ (index < 0 ∨ (franklin_column_size ⟨d, vals⟩ : Int) ≤ index) := by
    simp only [franklin_column_size]
    omega
  simp [Column.getitem, hc]

/-- Claim C9, witness: an int32-tagged and a hypothetically tagged column
with the same buffer read identically at index 0, through the int32
getter. -/
theorem getitem_ignores_dtype_witness :
    (0 : Int) ≤ 0 ∧ (0 : Int) < (([5, 6] : List Int).length : Int) ∧
    (Column.getitem ⟨0, [5, 6]⟩ 0 = Column.getitem ⟨2, [5, 6]⟩ 0 ∧
     Column.getitem ⟨0, [5, 6]⟩ 0 = .ok (franklin_column_get_int32 [5, 6] (0 : Int).toNat) ∧
     Column.to_list ⟨0, [5, 6]⟩ = Column.to_list ⟨2, [5, 6]⟩) :=
  ⟨by decide, by decide,
    (getitem_ignores_dtype 0 2 [5, 6] 0).1,
    (getitem_ignores_dtype 0 2 [5, 6] 0).2.1 (by decide) (by decide),
    (getitem_ignores_dtype 0 2 [5, 6] 0).2.2⟩

/-- Claim C10: interpreter construction is restricted to the int32
default representation — `Interpreter.__init__` can only succeed when the
dtype string is "int32", and for any other dtype it raises `ValueError`
without consulting the native create at all (the outcome is identical for
every native create result, so no registry handle is created first). -/
theorem interpreter_init_int32_only (r : Option Nat) (dtype : String) :
    ((∃ h, Interpreter.init r dtype = .ok h) → dtype = "int32") ∧
    (dtype ≠ "int32" →
      (∀ r2, Interpreter.init r dtype = Interpreter.init r2 dtype) ∧
      Interpreter.init r dtype = .error (.valueError ("Unsupported dtype: " ++ dtype))) := by
  unfold Interpreter.init
  by_cases hd : dtype = "int32"
  · subst hd
    refine ⟨fun _ => rfl, fun hne => absurd rfl hne⟩
  · rw [if_neg hd]
    refine ⟨fun ⟨h, hv⟩ => Except.noConfusion hv, fun _ => ⟨fun r2 => ?_, rfl⟩⟩
    rw [if_neg hd]

/-- Claim C10, witness: constructing an interpreter with dtype "float32"
raises `ValueError` regardless of the native create result. -/
theorem interpreter_init_int32_only_witness :
    ("float32" ≠ "int32") ∧
    ((∀ r2, Interpreter.init (some 3) "float32" = Interpreter.init r2 "float32") ∧
     Interpreter.init (some 3) "float32" =
       .error (.valueError ("Unsupported dtype: " ++ "float32"))) :=
  ⟨by decide, (interpreter_init_int32_only (some 3) "float32").2 (by decide)⟩

end Franklin
